import Mathlib

/-!
Shallow embedding of the JWT auto-login handoff protocol of the
tag-automation-shopify repository.

Source files embedded here:
- the verifier server (`verifyJWT`, `blacklistToken`, `checkExistingAuth`,
  the `GET /auto-login` handler) with its in-memory `tokenBlacklist` Set;
- the issuer-side encoders `generateAutoLoginToken` from the website1 sample
  (integration guide) and from `shopify-app-auto-login.js`.

Modelling conventions:
- a compact signed token string is modelled by the inductive `Jwt`: either a
  well-formed signed envelope carrying the payload, the envelope issuer and
  audience claims, the envelope expiry and the key it was signed with, or a
  malformed string.  Signature verification against a secret is modelled as
  equality of the signing key with the expected secret (HMAC with a shared
  symmetric secret);
- times are integer Unix seconds (`Int`);
- JavaScript truthiness on the optional identity fields is modelled
  explicitly: `undefined`, `0` and `""` are falsy (`truthyNat`, `truthyStr`);
- the `jsonwebtoken` library behaviour embedded in `jwtVerify`: with no
  `audience`/`issuer` options (as in the server's `jwt.verify(token,
  JWT_SECRET)` call) it checks only the signature and then the envelope
  expiry (`TokenExpiredError` when `clockTimestamp >= exp`), and never
  compares the audience or issuer claims;
- `jwt.sign` with `expiresIn: '5m'` and an explicit `iat` in the payload sets
  the envelope expiry to `iat + 300` (the library computes `exp` relative to
  a caller-supplied `iat`);
- the JavaScript `Set` `tokenBlacklist` is an insertion-ordered list without
  duplicates; `Array.from` enumerates it in insertion order and
  `slice(-500)` keeps the 500 most recently inserted entries.
-/

/-- Truthiness of an optional JavaScript number: `undefined` and `0` are falsy. -/
def truthyNat : Option Nat → Bool
  | some n => n ≠ 0
  | none => false

/-- Truthiness of an optional JavaScript string: `undefined` and `""` are falsy. -/
def truthyStr : Option String → Bool
  | some s => s ≠ ""
  | none => false

/-- JavaScript `a || b` on optional strings, as in `user.username || user.email`. -/
def jsOrStr (a b : Option String) : Option String :=
  if truthyStr a then a else b

/-- Claims payload placed in the auto-login token by the issuer-side encoders:
`{userId, username, purpose, website, shopDomain?, iat}`. -/
structure Payload where
  userId : Option Nat
  username : Option String
  purpose : String
  website : String
  shopDomain : Option String
  iat : Int
deriving DecidableEq, Repr

/-- Compact serialized token string: a signed envelope (payload plus the
envelope `iss`/`aud`/`exp` claims, signed with `key`) or a string that does
not parse as a JWT at all. -/
inductive Jwt where
  | signed (payload : Payload) (iss : String) (aud : String) (exp : Int) (key : String)
  | malformed (raw : String)
deriving DecidableEq, Repr

/-- Failure kinds raised by the verification pipeline, one per distinct
`throw` site reachable from `verifyJWT`:
`alreadyUsed` = "Token has already been used",
`malformedToken` = jsonwebtoken "jwt malformed",
`badSignature` = jsonwebtoken "invalid signature",
`expired` = jsonwebtoken "jwt expired" (envelope expiry),
`invalidSubject` = "Invalid token: missing user identification",
`tooOld` = "Token has expired" (recomputed-age check). -/
inductive VerifyError where
  | alreadyUsed
  | malformedToken
  | badSignature
  | expired
  | invalidSubject
  | tooOld
deriving DecidableEq, Repr

/-- Embedding of `jwt.sign(payload, key, {expiresIn: '5m', issuer, audience})`:
the envelope expiry is `payload.iat + 300` (both encoders set `iat` to the
current time, and the library computes `expiresIn` relative to it). -/
def jwtSign (payload : Payload) (key : String) (iss aud : String) : Jwt :=
  .signed payload iss aud (payload.iat + 300) key

/-- Embedding of the library call `jwt.verify(token, key)` with no options, as
issued by the server: parse, check the signature against `key`, check the
envelope expiry (`TokenExpiredError` when `now ≥ exp`), and return the decoded
payload.  No audience or issuer comparison is performed because the server
passes no `audience`/`issuer` options. -/
def jwtVerify (key : String) (now : Int) (t : Jwt) : Except VerifyError Payload :=
  match t with
  | .malformed _ => .error .malformedToken
  | .signed payload _iss _aud exp k =>
    if k ≠ key then .error .badSignature
    else if exp ≤ now then .error .expired
    else .ok payload

/-- Subject-presence test of the server: `!decoded.userId && !decoded.username`
fails; present means a truthy `userId` or a truthy `username`. -/
def hasSubject (p : Payload) : Bool :=
  truthyNat p.userId || truthyStr p.username

/-- Embedding of the server's `verifyJWT(token)`: blacklist check, then
`jwt.verify`, then the required-field check, then the recomputed-age check
(`Date.now()/1000 - decoded.iat > 5*60` fails with "Token has expired"). -/
def verifyJWT (blacklist : List Jwt) (key : String) (now : Int) (t : Jwt) :
    Except VerifyError Payload :=
  if t ∈ blacklist then .error .alreadyUsed
  else
    match jwtVerify key now t with
    | .error e => .error e
    | .ok decoded =>
      if ¬ hasSubject decoded then .error .invalidSubject
      else if now - decoded.iat > 5 * 60 then .error .tooOld
      else .ok decoded

/-- Embedding of the server's `blacklistToken(token)`: add the token to the
Set (no effect when already present), then, when the size exceeds 1000, keep
only the 500 most recently inserted entries (`Array.from(...).slice(-500)`). -/
def blacklistToken (bl : List Jwt) (t : Jwt) : List Jwt :=
  let bl2 := if t ∈ bl then bl else bl ++ [t]
  if bl2.length > 1000 then bl2.drop (bl2.length - 500) else bl2

/-- Local user account row of the verifier's `users` table. -/
structure UserRow where
  id : Nat
  username : String
  password : String
deriving DecidableEq, Repr

/-- Embedding of `SELECT * FROM users WHERE id = ?` returning the first match. -/
def findUserById (db : List UserRow) (i : Nat) : Option UserRow :=
  db.find? (fun r => r.id == i)

/-- Embedding of `SELECT * FROM users WHERE username = ?` returning the first match. -/
def findUserByName (db : List UserRow) (n : String) : Option UserRow :=
  db.find? (fun r => r.username == n)

/-- User lookup of the `/auto-login` handler: `if (decoded.userId)` look up by
id, `else if (decoded.username)` look up by username; there is no fallback
from a failed id lookup to the username lookup. -/
def lookupUser (db : List UserRow) (p : Payload) : Option UserRow :=
  if truthyNat p.userId then findUserById db (p.userId.getD 0)
  else if truthyStr p.username then findUserByName db (p.username.getD "")
  else none

/-- Server-side session state: `userId`, `username`, the `autoLogin` flag and
`loginTime`. -/
structure Session where
  userId : Option Nat
  username : Option String
  autoLogin : Bool
  loginTime : Option Int
deriving DecidableEq, Repr

/-- Fresh session holding no data, as produced by `session.regenerate` before
the handler restores the fields. -/
def Session.empty : Session := ⟨none, none, false, none⟩

/-- Outcome of the `/auto-login` request: the `checkExistingAuth` redirect to
`/dashboard`, the success redirect to `/dashboard?auto_login=success`, or a
redirect to `/login?error=<code>`. -/
inductive FlowResult where
  | dashboard
  | dashboardSuccess
  | login (code : String)
deriving DecidableEq, Repr

/-- Embedding of `checkExistingAuth` composed with the `GET /auto-login`
handler.  `regenOk` and `saveOk` model whether `req.session.regenerate` and
`req.session.save` invoke their callbacks without an error.  Returns the
redirect outcome, the token blacklist after the request and the session
state after the request.  The verify call and the `blacklistToken` call are
consecutive synchronous statements in the handler (no `await` between them). -/
def autoLoginHandler (bl : List Jwt) (sess : Session) (db : List UserRow)
    (key : String) (now : Int) (tokenParam : Option Jwt) (regenOk saveOk : Bool) :
    FlowResult × List Jwt × Session :=
  if truthyNat sess.userId then (.dashboard, bl, sess)
  else
    match tokenParam with
    | none => (.login "missing_token", bl, sess)
    | some token =>
      match verifyJWT bl key now token with
      | .error _ => (.login "invalid_token", bl, sess)
      | .ok decoded =>
        let bl2 := blacklistToken bl token
        match lookupUser db decoded with
        | none => (.login "user_not_found", bl2, sess)
        | some user =>
          if regenOk then
            let sess2 : Session := ⟨some user.id, some user.username, true, some now⟩
            if saveOk then (.dashboardSuccess, bl2, sess2)
            else (.login "session_error", bl2, sess2)
          else (.login "session_error", bl2, Session.empty)

/-- Issuer-side user object handed to the encoders. -/
structure User where
  id : Option Nat
  username : Option String
  email : Option String
  shopDomain : Option String
deriving DecidableEq, Repr

/-- Failure of the issuer-side encoder. -/
inductive EncodeError where
  | invalidSubject
deriving DecidableEq, Repr

namespace Website1

/-- Embedding of `generateAutoLoginToken(user)` from the website1 sample
(integration guide): fails when `!user.id && !user.username`, otherwise signs
`{userId, username, purpose: 'auto-login', website: 'website1', iat: now}`
with `expiresIn: '5m'`, `issuer: 'website1'`, `audience: 'website2'`. -/
def generateAutoLoginToken (key : String) (now : Int) (user : User) :
    Except EncodeError Jwt :=
  if ¬ (truthyNat user.id || truthyStr user.username) then .error .invalidSubject
  else .ok (jwtSign ⟨user.id, user.username, "auto-login", "website1", none, now⟩
    key "website1" "website2")

end Website1

namespace ShopifyApp

/-- Embedding of `generateAutoLoginToken(user)` from
`shopify-app-auto-login.js`: no validation of the user object; signs
`{userId, username: user.username || user.email, shopDomain, purpose:
'auto-login', website: 'shopify-app', iat: now}` with `expiresIn: '5m'`,
`issuer: 'shopify-app'`, `audience: 'website2'`. -/
def generateAutoLoginToken (key : String) (now : Int) (user : User) : Jwt :=
  jwtSign
    ⟨user.id, jsOrStr user.username user.email, "auto-login", "shopify-app",
      user.shopDomain, now⟩
    key "shopify-app" "website2"

end ShopifyApp

/-- One `/auto-login` verification attempt restricted to its replay-guard
interaction: the handler calls `verifyJWT` and, only when it succeeds,
immediately calls `blacklistToken`, both in the same synchronous segment of
the event-loop turn (no `await` separates them), so concurrent requests
observe these two steps as one atomic action. -/
def attemptVerifyAndMark (bl : List Jwt) (key : String) (now : Int) (t : Jwt) :
    Except VerifyError Payload × List Jwt :=
  match verifyJWT bl key now t with
  | .error e => (.error e, bl)
  | .ok p => (.ok p, blacklistToken bl t)

/-- Sequential composition of same-token verification attempts, one per
event-loop turn (the single-threaded event loop serializes the atomic
verify-and-mark segments of concurrent requests in some order; each attempt
may run at its own clock reading). -/
def runAttempts (key : String) (t : Jwt) :
    List Jwt → List Int → List (Except VerifyError Payload) × List Jwt
  | bl, [] => ([], bl)
  | bl, now :: rest =>
    let step := attemptVerifyAndMark bl key now t
    let tail := runAttempts key t step.2 rest
    (step.1 :: tail.1, tail.2)

/-- Number of successful outcomes in a list of attempt results. -/
def countOk (rs : List (Except VerifyError Payload)) : Nat :=
  (rs.filter (fun r => r.isOk)).length

/-! ## Supporting lemmas about the replay guard and the verifier -/

/-- Blacklisted tokens fail with the already-used error at the first check. -/
theorem verifyJWT_of_mem (bl : List Jwt) (key : String) (now : Int) (t : Jwt)
    (h : t ∈ bl) : verifyJWT bl key now t = .error .alreadyUsed := by
  simp [verifyJWT, h]

/-- Successful verification implies the token was not blacklisted. -/
theorem verifyJWT_ok_not_mem (bl : List Jwt) (key : String) (now : Int) (t : Jwt)
    (p : Payload) (h : verifyJWT bl key now t = .ok p) : t ∉ bl := by
  intro hm
  rw [verifyJWT_of_mem bl key now t hm] at h
  exact absurd h (by simp)

/-- Blacklisting a token that was not yet blacklisted always records it, even
when the size cap triggers the half-eviction: `slice(-500)` keeps the most
recently inserted entries and the freshly added token is the most recent. -/
theorem mem_blacklistToken_self (bl : List Jwt) (t : Jwt) (h : t ∉ bl) :
    t ∈ blacklistToken bl t := by
  unfold blacklistToken
  simp only [h, if_false]
  split
  · next hlen =>
    have hle : (bl ++ [t]).length - 500 ≤ bl.length := by
      simp only [List.length_append, List.length_singleton] at hlen ⊢
      omega
    rw [List.drop_append_of_le_length hle]
    simp
  · simp

/-! ## C1: audience/issuer mismatch handling -/

/-- C1 counterexample: a token signed with the shared secret `"s"` whose
envelope audience is `"not-website2"` (the verifier's expected audience is
`"website2"`) and whose envelope issuer is `"attacker"` (neither sample
issuer `"website1"` nor `"shopify-app"`) is accepted by the server's
`verifyJWT` and its claims are returned as a success — there is no
audience/issuer mismatch failure, refuting the claim. -/
theorem c1_counterexample :
    ("not-website2" ≠ "website2" ∧ "attacker" ≠ "website1" ∧ "attacker" ≠ "shopify-app") ∧
    verifyJWT [] "s" 10
      (.signed ⟨some 1, some "admin", "auto-login", "shopify-app", none, 0⟩
        "attacker" "not-website2" 300 "s")
      = .ok ⟨some 1, some "admin", "auto-login", "shopify-app", none, 0⟩ :=
  ⟨by decide, rfl⟩

/-- C1 amended: the server calls `jwt.verify(token, JWT_SECRET)` without
`audience`/`issuer` options, so no audience/issuer comparison is made at all.
A not-yet-consumed token signed with the shared secret whose subject is
present, whose envelope expiry has not passed and whose recomputed age is
within five minutes is accepted with its claims, whatever its envelope
audience and issuer — in particular for every mismatched audience/issuer. -/
theorem c1_no_audience_issuer_check (bl : List Jwt) (key : String) (now : Int)
    (p : Payload) (iss aud : String) (exp : Int)
    (hbl : Jwt.signed p iss aud exp key ∉ bl)
    (hexp : now < exp) (hsub : hasSubject p = true) (hage : now - p.iat ≤ 5 * 60) :
    verifyJWT bl key now (.signed p iss aud exp key) = .ok p := by
  have hnl : ¬ exp ≤ now := not_le.mpr hexp
  have h1 : jwtVerify key now (Jwt.signed p iss aud exp key) = .ok p := by
    simp [jwtVerify, hnl]
  have hna : ¬ now - p.iat > 5 * 60 := not_lt.mpr hage
  simp [verifyJWT, hbl, h1, hsub, hna]
  omega

/-- C1 amended, witness: concrete acceptance of a fresh well-signed token
carrying a mismatched audience and issuer. -/
theorem c1_no_audience_issuer_check_witness :
    verifyJWT [] "s" 10
      (.signed ⟨some 2, none, "auto-login", "website1", none, 0⟩
        "rogue-issuer" "other-audience" 300 "s")
      = .ok ⟨some 2, none, "auto-login", "website1", none, 0⟩ :=
  c1_no_audience_issuer_check [] "s" 10
    ⟨some 2, none, "auto-login", "website1", none, 0⟩
    "rogue-issuer" "other-audience" 300
    (by simp) (by decide) (by decide) (by decide)

/-! ## C2: encode-verify round trip succeeds exactly once -/

/-- C2: a subject accepted by the website1 encoder (at least one truthy
identifier, witnessed by the encoder returning a token) yields a token that,
within the 5-minute lifetime and before any consumption, verifies
successfully with that subject's claims; once the caller marks it consumed
(`blacklistToken`, as the handler does), a second verification of the same
token returns the already-used failure at any clock reading. -/
theorem c2_verify_encode_once (bl : List Jwt) (key : String) (t0 now now2 : Int)
    (user : User) (tok : Jwt)
    (henc : Website1.generateAutoLoginToken key t0 user = .ok tok)
    (hbl : tok ∉ bl) (hfresh : now < t0 + 5 * 60) :
    (∃ p, verifyJWT bl key now tok = .ok p ∧
      p.userId = user.id ∧ p.username = user.username ∧ p.iat = t0) ∧
    verifyJWT (blacklistToken bl tok) key now2 tok = .error .alreadyUsed := by
  rw [Website1.generateAutoLoginToken] at henc
  split_ifs at henc with hc
  · rw [Except.ok.injEq] at henc
    subst henc
    have hsub : hasSubject ⟨user.id, user.username, "auto-login", "website1", none, t0⟩ = true := by
      simpa [hasSubject] using hc
    have hfirst :
        verifyJWT bl key now (jwtSign ⟨user.id, user.username, "auto-login", "website1", none, t0⟩
          key "website1" "website2") = .ok ⟨user.id, user.username, "auto-login", "website1", none, t0⟩ := by
      rw [jwtSign]
      have hnl : ¬ ((t0 : Int) + 300 ≤ now) := by omega
      have h1 : jwtVerify key now (Jwt.signed ⟨user.id, user.username, "auto-login", "website1", none, t0⟩
          "website1" "website2" (t0 + 300) key) = .ok ⟨user.id, user.username, "auto-login", "website1", none, t0⟩ := by
        simp [jwtVerify, hnl]
      have hna : ¬ now - t0 > 5 * 60 := by omega
      rw [jwtSign] at hbl
      simp [verifyJWT, hbl, h1, hsub, hna]
      omega
    refine ⟨⟨_, hfirst, rfl, rfl, rfl⟩, ?_⟩
    exact verifyJWT_of_mem _ key now2 _ (mem_blacklistToken_self bl _ hbl)

/-- C2 witness: concrete round trip for the subject `{id: 1}` encoded at time
0, verified at time 10, then re-verified after consumption at time 20. -/
theorem c2_verify_encode_once_witness :
    (∃ p, verifyJWT [] "s" 10
        (.signed ⟨some 1, none, "auto-login", "website1", none, 0⟩ "website1" "website2" 300 "s") = .ok p ∧
      p.userId = some 1 ∧ p.username = none ∧ p.iat = 0) ∧
    verifyJWT
      (blacklistToken [] (.signed ⟨some 1, none, "auto-login", "website1", none, 0⟩ "website1" "website2" 300 "s"))
      "s" 20 (.signed ⟨some 1, none, "auto-login", "website1", none, 0⟩ "website1" "website2" 300 "s")
      = .error .alreadyUsed :=
  c2_verify_encode_once [] "s" 0 10 20 ⟨some 1, none, none, none⟩ _ rfl (by simp) (by decide)

/-! ## C4: recomputed-age freshness check -/

/-- C4: for a token reaching the freshness checks (not yet consumed, signed
with the shared secret, subject present) at a clock reading more than five
minutes past `issuedAt`, verification fails with an expiry failure: with the
recomputed-age failure ("Token has expired") whenever the envelope's own
expiry field lies far enough in the future that the envelope check alone
would pass, and with the envelope-expiry failure ("jwt expired") otherwise. -/
theorem c4_expired_after_five_minutes (bl : List Jwt) (key : String) (now : Int)
    (p : Payload) (iss aud : String) (exp : Int)
    (hbl : Jwt.signed p iss aud exp key ∉ bl)
    (hsub : hasSubject p = true)
    (hage : now - p.iat > 5 * 60) :
    (now < exp → verifyJWT bl key now (.signed p iss aud exp key) = .error .tooOld) ∧
    (exp ≤ now → verifyJWT bl key now (.signed p iss aud exp key) = .error .expired) := by
  constructor
  · intro hexp
    have h1 : jwtVerify key now (Jwt.signed p iss aud exp key) = .ok p := by
      simp [jwtVerify, not_le.mpr hexp]
    simp [verifyJWT, hbl, h1, hsub]
    omega
  · intro hexp
    have h1 : jwtVerify key now (Jwt.signed p iss aud exp key) = .error .expired := by
      simp [jwtVerify, hexp]
    simp [verifyJWT, hbl, h1]

/-- C4 witness: a token issued at time 0 whose envelope expiry was pushed to
time 1000000 is still rejected at time 301 with the recomputed-age failure. -/
theorem c4_expired_after_five_minutes_witness :
    verifyJWT [] "s" 301
      (.signed ⟨some 1, none, "auto-login", "website1", none, 0⟩ "website1" "website2" 1000000 "s")
      = .error .tooOld :=
  (c4_expired_after_five_minutes [] "s" 301
    ⟨some 1, none, "auto-login", "website1", none, 0⟩ "website1" "website2" 1000000
    (by simp) (by decide) (by decide)).1 (by decide)

/-! ## C5: fixed order of checks with short-circuit -/

/-- C5: `verifyJWT` short-circuits in a fixed order.  A consumed token fails
with the already-used error whatever else is wrong with it (malformed, badly
signed, expired); otherwise a `jwt.verify` failure (malformed / bad signature
/ envelope expiry) is propagated; only after a structurally successful decode
is subject presence checked; and the recomputed-age check runs last, the
success case being reached only when every check has passed. -/
theorem c5_check_order (bl : List Jwt) (key : String) (now : Int) (t : Jwt) :
    (t ∈ bl → verifyJWT bl key now t = .error .alreadyUsed) ∧
    (t ∉ bl → ∀ e, jwtVerify key now t = .error e → verifyJWT bl key now t = .error e) ∧
    (∀ p, t ∉ bl → jwtVerify key now t = .ok p → hasSubject p = false →
      verifyJWT bl key now t = .error .invalidSubject) ∧
    (∀ p, t ∉ bl → jwtVerify key now t = .ok p → hasSubject p = true → now - p.iat > 5 * 60 →
      verifyJWT bl key now t = .error .tooOld) ∧
    (∀ p, t ∉ bl → jwtVerify key now t = .ok p → hasSubject p = true → now - p.iat ≤ 5 * 60 →
      verifyJWT bl key now t = .ok p) := by
  refine ⟨fun h => verifyJWT_of_mem bl key now t h, ?_, ?_, ?_, ?_⟩
  · intro h e he
    simp [verifyJWT, h, he]
  · intro p h hp hsub
    simp [verifyJWT, h, hp, hsub]
  · intro p h hp hsub hage
    simp [verifyJWT, h, hp, hsub]
    omega
  · intro p h hp hsub hage
    simp [verifyJWT, h, hp, hsub]
    omega

/-- C5 witness: a malformed and long-expired token that is already consumed
fails with the already-used error, while the same malformed token fails with
the malformed-token error when it is not consumed. -/
theorem c5_check_order_witness :
    verifyJWT [Jwt.malformed "garbage"] "s" 99999 (Jwt.malformed "garbage")
      = .error .alreadyUsed ∧
    verifyJWT [] "s" 99999 (Jwt.malformed "garbage") = .error .malformedToken :=
  ⟨(c5_check_order [Jwt.malformed "garbage"] "s" 99999 (Jwt.malformed "garbage")).1
      (by simp),
   (c5_check_order [] "s" 99999 (Jwt.malformed "garbage")).2.1
      (by simp) .malformedToken rfl⟩

/-! ## C6: already-authenticated callers short-circuit without token burn -/

/-- C6: when the request carries a session with a truthy `userId`,
`checkExistingAuth` redirects to `/dashboard` before the handler body runs:
the outcome, the token blacklist and the session are all unchanged, whatever
token (or no token) the request carries.  Consequently a valid unused token
presented on such a request remains unconsumed: a later standalone
verify-and-mark attempt on it still succeeds, and only the attempt after
that one observes the already-used failure. -/
theorem c6_existing_session_short_circuit (bl : List Jwt) (sess : Session)
    (db : List UserRow) (key : String) (now : Int) (tokenParam : Option Jwt)
    (regenOk saveOk : Bool)
    (hauth : truthyNat sess.userId = true) :
    autoLoginHandler bl sess db key now tokenParam regenOk saveOk = (.dashboard, bl, sess) ∧
    (∀ tok p now2 now3, tokenParam = some tok → verifyJWT bl key now2 tok = .ok p →
      (attemptVerifyAndMark bl key now2 tok).1 = .ok p ∧
      verifyJWT (attemptVerifyAndMark bl key now2 tok).2 key now3 tok = .error .alreadyUsed) := by
  constructor
  · simp [autoLoginHandler, hauth]
  · intro tok p now2 now3 _ hver
    have hnm : tok ∉ bl := verifyJWT_ok_not_mem bl key now2 tok p hver
    constructor
    · simp [attemptVerifyAndMark, hver]
    · have h2 : (attemptVerifyAndMark bl key now2 tok).2 = blacklistToken bl tok := by
        simp [attemptVerifyAndMark, hver]
      rw [h2]
      exact verifyJWT_of_mem _ key now3 _ (mem_blacklistToken_self bl tok hnm)

/-- C6 witness: a logged-in session (`userId = 7`) presenting a fresh valid
token is redirected to the dashboard with the blacklist and session intact,
and that token afterwards verifies successfully exactly once. -/
theorem c6_existing_session_short_circuit_witness :
    autoLoginHandler [] ⟨some 7, some "admin", false, none⟩ [⟨7, "admin", "h"⟩] "s" 10
      (some (.signed ⟨some 7, some "admin", "auto-login", "website1", none, 0⟩ "website1" "website2" 300 "s"))
      true true
      = (.dashboard, [], ⟨some 7, some "admin", false, none⟩) ∧
    (attemptVerifyAndMark [] "s" 10
        (.signed ⟨some 7, some "admin", "auto-login", "website1", none, 0⟩ "website1" "website2" 300 "s")).1
      = .ok ⟨some 7, some "admin", "auto-login", "website1", none, 0⟩ ∧
    verifyJWT
      (attemptVerifyAndMark [] "s" 10
        (.signed ⟨some 7, some "admin", "auto-login", "website1", none, 0⟩ "website1" "website2" 300 "s")).2
      "s" 20
      (.signed ⟨some 7, some "admin", "auto-login", "website1", none, 0⟩ "website1" "website2" 300 "s")
      = .error .alreadyUsed := by
  have h := c6_existing_session_short_circuit []
    ⟨some 7, some "admin", false, none⟩ [⟨7, "admin", "h"⟩] "s" 10
    (some (.signed ⟨some 7, some "admin", "auto-login", "website1", none, 0⟩ "website1" "website2" 300 "s"))
    true true (by decide)
  exact ⟨h.1, (h.2 _ _ 10 20 rfl rfl).1, (h.2 _ _ 10 20 rfl rfl).2⟩

/-! ## C8: failures after consumption leave the token burned -/

/-- Under an unauthenticated session and a successful verification, the
handler records the token in the blacklist before any user lookup or session
step, and no branch of the handler removes it again. -/
theorem autoLoginHandler_blacklist_after_verify (bl : List Jwt) (sess : Session)
    (db : List UserRow) (key : String) (now : Int) (tok : Jwt) (p : Payload)
    (regenOk saveOk : Bool)
    (hsess : truthyNat sess.userId = false)
    (hver : verifyJWT bl key now tok = .ok p) :
    (autoLoginHandler bl sess db key now (some tok) regenOk saveOk).2.1
      = blacklistToken bl tok := by
  simp only [autoLoginHandler, hsess, Bool.false_eq_true, if_false, hver]
  cases h : lookupUser db p with
  | none => simp
  | some user =>
    cases regenOk <;> cases saveOk <;> simp

/-- C8: whenever the handler runs past verification and marks the token
consumed (unauthenticated session, token verifies), the token is in the
blacklist after the request for every possible continuation — unknown user,
session-regeneration failure, session-save failure, or success — and
re-presenting the same token at any later clock reading fails with the
already-used error: the failure paths never un-burn the token. -/
theorem c8_fail_closed (bl : List Jwt) (sess : Session) (db : List UserRow)
    (key : String) (now now2 : Int) (tok : Jwt) (p : Payload) (regenOk saveOk : Bool)
    (hsess : truthyNat sess.userId = false)
    (hver : verifyJWT bl key now tok = .ok p) :
    tok ∈ (autoLoginHandler bl sess db key now (some tok) regenOk saveOk).2.1 ∧
    verifyJWT (autoLoginHandler bl sess db key now (some tok) regenOk saveOk).2.1
      key now2 tok = .error .alreadyUsed := by
  have hnm : tok ∉ bl := verifyJWT_ok_not_mem bl key now tok p hver
  have hbl2 := autoLoginHandler_blacklist_after_verify bl sess db key now tok p
    regenOk saveOk hsess hver
  rw [hbl2]
  have hmem := mem_blacklistToken_self bl tok hnm
  exact ⟨hmem, verifyJWT_of_mem _ key now2 _ hmem⟩

/-- C8 witness: the unknown-user failure path (empty user table) still leaves
the freshly consumed token blacklisted and replay-rejected. -/
theorem c8_fail_closed_witness :
    (.signed ⟨some 3, none, "auto-login", "website1", none, 0⟩ "website1" "website2" 300 "s") ∈
      (autoLoginHandler [] ⟨none, none, false, none⟩ [] "s" 10
        (some (.signed ⟨some 3, none, "auto-login", "website1", none, 0⟩ "website1" "website2" 300 "s"))
        true true).2.1 ∧
    verifyJWT
      (autoLoginHandler [] ⟨none, none, false, none⟩ [] "s" 10
        (some (.signed ⟨some 3, none, "auto-login", "website1", none, 0⟩ "website1" "website2" 300 "s"))
        true true).2.1
      "s" 20 (.signed ⟨some 3, none, "auto-login", "website1", none, 0⟩ "website1" "website2" 300 "s")
      = .error .alreadyUsed :=
  c8_fail_closed [] ⟨none, none, false, none⟩ [] "s" 10 20
    (.signed ⟨some 3, none, "auto-login", "website1", none, 0⟩ "website1" "website2" 300 "s")
    ⟨some 3, none, "auto-login", "website1", none, 0⟩ true true rfl rfl

/-! ## C7: encode-time subject validation -/

/-- C7 counterexample: the Shopify-app encoder performs no subject
validation.  For a user supplying neither an id nor a username (nor an
email), `generateAutoLoginToken` from `shopify-app-auto-login.js` still
produces a signed token — its payload carries no subject at all — instead of
failing with an invalid-subject error at encode time. -/
theorem c7_counterexample :
    ShopifyApp.generateAutoLoginToken "s" 5 ⟨none, none, none, none⟩
      = Jwt.signed ⟨none, none, "auto-login", "shopify-app", none, 5⟩ "shopify-app" "website2" 305 "s" ∧
    hasSubject ⟨none, none, "auto-login", "shopify-app", none, 5⟩ = false :=
  ⟨rfl, rfl⟩

/-- C7 amended: encode-time enforcement differs between the two encoders in
the repository.  The website1 sample encoder rejects a subject with neither
truthy identifier with the invalid-subject error and produces no token; the
Shopify-app encoder performs no validation and signs a subjectless token,
whose rejection (the missing-user-identification failure) happens only at
the verifier's decode-time checks. -/
theorem c7_encoder_validation (key : String) (now : Int) (user : User)
    (h1 : truthyNat user.id = false) (h2 : truthyStr user.username = false)
    (h3 : truthyStr user.email = false) :
    Website1.generateAutoLoginToken key now user = .error .invalidSubject ∧
    (∀ bl now2, ShopifyApp.generateAutoLoginToken key now user ∉ bl → now2 < now + 300 →
      verifyJWT bl key now2 (ShopifyApp.generateAutoLoginToken key now user)
        = .error .invalidSubject) := by
  constructor
  · simp [Website1.generateAutoLoginToken, h1, h2]
  · intro bl now2 hbl hfresh
    have hor : jsOrStr user.username user.email = user.email := by
      simp [jsOrStr, h2]
    have h1v : jwtVerify key now2 (ShopifyApp.generateAutoLoginToken key now user)
        = .ok ⟨user.id, jsOrStr user.username user.email, "auto-login", "shopify-app",
            user.shopDomain, now⟩ := by
      have hnl : ¬ (now + 300 ≤ now2) := by omega
      simp [ShopifyApp.generateAutoLoginToken, jwtSign, jwtVerify, hnl]
    have hsub : hasSubject ⟨user.id, jsOrStr user.username user.email, "auto-login",
        "shopify-app", user.shopDomain, now⟩ = false := by
      simp [hasSubject, hor, h1, h3]
    simp [verifyJWT, hbl, h1v, hsub]

/-- C7 amended, witness: the empty subject is rejected by the website1
encoder at encode time but passes the Shopify-app encoder and is rejected
only by the verifier. -/
theorem c7_encoder_validation_witness :
    Website1.generateAutoLoginToken "s" 5 ⟨none, none, none, none⟩ = .error .invalidSubject ∧
    verifyJWT [] "s" 6 (ShopifyApp.generateAutoLoginToken "s" 5 ⟨none, none, none, none⟩)
      = .error .invalidSubject := by
  have h := c7_encoder_validation "s" 5 ⟨none, none, none, none⟩ rfl rfl rfl
  exact ⟨h.1, h.2 [] 6 (by simp) (by decide)⟩

/-! ## C9: user lookup by id with no fallback to the username -/

/-- C9 counterexample: the database holds the single account
`{id: 1, username: "admin"}` and the verified credential carries both
`userId = 2` and `username = "admin"`.  The username lookup would find the
account, but the handler looks up by id only (`if (decoded.userId) ... else
if (decoded.username) ...`), finds nothing for id 2, and fails with the
`user_not_found` redirect instead of succeeding via the name. -/
theorem c9_counterexample :
    findUserByName [⟨1, "admin", "h"⟩] "admin" = some ⟨1, "admin", "h"⟩ ∧
    lookupUser [⟨1, "admin", "h"⟩] ⟨some 2, some "admin", "auto-login", "website1", none, 0⟩ = none ∧
    autoLoginHandler [] ⟨none, none, false, none⟩ [⟨1, "admin", "h"⟩] "s" 10
      (some (.signed ⟨some 2, some "admin", "auto-login", "website1", none, 0⟩ "website1" "website2" 300 "s"))
      true true
      = (.login "user_not_found",
         [.signed ⟨some 2, some "admin", "auto-login", "website1", none, 0⟩ "website1" "website2" 300 "s"],
         ⟨none, none, false, none⟩) :=
  ⟨rfl, rfl, rfl⟩

/-- C9 amended: the handler looks the local user up by `subjectId` when the
credential carries a truthy `userId`, and by `subjectName` only when it does
not; there is no fallback from a failed id lookup.  A verified credential
with a truthy `userId` matching no account therefore ends in the
`user_not_found` redirect regardless of the `username` it carries, leaving
the (already burned) token blacklisted. -/
theorem c9_lookup_no_fallback (bl : List Jwt) (sess : Session) (db : List UserRow)
    (key : String) (now : Int) (tok : Jwt) (p : Payload) (regenOk saveOk : Bool)
    (hsess : truthyNat sess.userId = false)
    (hver : verifyJWT bl key now tok = .ok p)
    (hid : truthyNat p.userId = true)
    (hmiss : findUserById db (p.userId.getD 0) = none) :
    autoLoginHandler bl sess db key now (some tok) regenOk saveOk
      = (.login "user_not_found", blacklistToken bl tok, sess) := by
  have hlook : lookupUser db p = none := by
    simp [lookupUser, hid, hmiss]
  simp [autoLoginHandler, hsess, hver, hlook]

/-- C9 amended, witness: concrete run of the handler on the counterexample
database and credential through the amended theorem. -/
theorem c9_lookup_no_fallback_witness :
    autoLoginHandler [] ⟨none, none, false, none⟩ [⟨1, "admin", "h"⟩] "s" 10
      (some (.signed ⟨some 2, some "admin", "auto-login", "website1", none, 0⟩ "website1" "website2" 300 "s"))
      false false
      = (.login "user_not_found",
         blacklistToken [] (.signed ⟨some 2, some "admin", "auto-login", "website1", none, 0⟩ "website1" "website2" 300 "s"),
         ⟨none, none, false, none⟩) :=
  c9_lookup_no_fallback [] ⟨none, none, false, none⟩ [⟨1, "admin", "h"⟩] "s" 10
    (.signed ⟨some 2, some "admin", "auto-login", "website1", none, 0⟩ "website1" "website2" 300 "s")
    ⟨some 2, some "admin", "auto-login", "website1", none, 0⟩ false false rfl rfl rfl rfl

/-! ## C10: at most one concurrent verification of the same token succeeds -/

/-- Once a token is blacklisted, every further verify-and-mark attempt on it
returns the already-used failure and leaves the guard state unchanged. -/
theorem runAttempts_of_mem (key : String) (t : Jwt) (bl : List Jwt) (times : List Int)
    (h : t ∈ bl) :
    runAttempts key t bl times
      = (times.map (fun _ => Except.error VerifyError.alreadyUsed), bl) := by
  induction times with
  | nil => rfl
  | cons now rest ih =>
    have hstep : attemptVerifyAndMark bl key now t
        = (.error .alreadyUsed, bl) := by
      simp [attemptVerifyAndMark, verifyJWT_of_mem bl key now t h]
    simp [runAttempts, hstep, ih]

/-- A list made only of already-used failures contains no success. -/
theorem countOk_map_alreadyUsed (times : List Int) :
    countOk (times.map (fun _ => Except.error VerifyError.alreadyUsed)) = 0 := by
  simp [countOk, List.filter_eq_nil_iff, Except.isOk, Except.toBool]

/-- C10: when the event loop serializes the atomic verify-and-mark segments
of N concurrent requests presenting the identical token (each possibly at
its own clock reading), at most one attempt succeeds; and as soon as some
attempt has succeeded, the guard state after the run rejects the token with
the already-used failure at every clock reading, so every later attempt
observes it as consumed. -/
theorem c10_at_most_one_success (key : String) (t : Jwt) (bl : List Jwt)
    (times : List Int) :
    countOk (runAttempts key t bl times).1 ≤ 1 ∧
    ((∃ r ∈ (runAttempts key t bl times).1, r.isOk = true) →
      ∀ now2, verifyJWT (runAttempts key t bl times).2 key now2 t
        = .error .alreadyUsed) := by
  induction times generalizing bl with
  | nil =>
    constructor
    · simp [runAttempts, countOk]
    · intro h
      exact absurd h (by simp [runAttempts])
  | cons now rest ih =>
    cases hver : verifyJWT bl key now t with
    | ok p =>
      have hnm : t ∉ bl := verifyJWT_ok_not_mem bl key now t p hver
      have hmem : t ∈ blacklistToken bl t := mem_blacklistToken_self bl t hnm
      have hstep : attemptVerifyAndMark bl key now t = (.ok p, blacklistToken bl t) := by
        simp [attemptVerifyAndMark, hver]
      have hrest := runAttempts_of_mem key t (blacklistToken bl t) rest hmem
      constructor
      · simp [runAttempts, hstep, hrest, countOk, Except.isOk, Except.toBool,
          countOk_map_alreadyUsed]
      · intro _ now2
        simp only [runAttempts, hstep, hrest]
        exact verifyJWT_of_mem _ key now2 _ hmem
    | error e =>
      have hstep : attemptVerifyAndMark bl key now t = (.error e, bl) := by
        simp [attemptVerifyAndMark, hver]
      constructor
      · have h1 := (ih bl).1
        simpa [runAttempts, hstep, countOk, Except.isOk, Except.toBool] using h1
      · intro hex now2
        have hex2 : ∃ r ∈ (runAttempts key t bl rest).1, r.isOk = true := by
          rcases hex with ⟨r, hr, hok⟩
          simp only [runAttempts, hstep, List.mem_cons] at hr
          rcases hr with hr | hr
          · subst hr; simp [Except.isOk, Except.toBool] at hok
          · exact ⟨r, hr, hok⟩
        have h2 := (ih bl).2 hex2 now2
        simpa [runAttempts, hstep] using h2

/-- C10 witness: three serialized attempts on the same fresh token — exactly
the first succeeds, and the final guard state rejects the token as already
used. -/
theorem c10_at_most_one_success_witness :
    countOk (runAttempts "s" (.signed ⟨some 1, none, "auto-login", "website1", none, 0⟩
        "website1" "website2" 300 "s") [] [10, 11, 12]).1 ≤ 1 ∧
    verifyJWT (runAttempts "s" (.signed ⟨some 1, none, "auto-login", "website1", none, 0⟩
        "website1" "website2" 300 "s") [] [10, 11, 12]).2 "s" 13
      (.signed ⟨some 1, none, "auto-login", "website1", none, 0⟩ "website1" "website2" 300 "s")
      = .error .alreadyUsed := by
  have h := c10_at_most_one_success "s"
    (.signed ⟨some 1, none, "auto-login", "website1", none, 0⟩ "website1" "website2" 300 "s")
    [] [10, 11, 12]
  refine ⟨h.1, h.2 ⟨.ok ⟨some 1, none, "auto-login", "website1", none, 0⟩, ?_, rfl⟩ 13⟩
  constructor

/-! ## C3: size-triggered eviction forgets live tokens -/

/-- Family of 1001 pairwise distinct consumed tokens, all issued at time 0
(so all within one 5-minute lifetime window). -/
def evictionToken (i : Nat) : Jwt :=
  .signed ⟨some (i + 1), none, "auto-login", "website1", none, 0⟩
    "website1" "website2" 300 "k"

/-- Distinct indices give distinct tokens. -/
theorem evictionToken_injective : Function.Injective evictionToken := by
  intro i j h
  simp only [evictionToken, Jwt.signed.injEq, Payload.mk.injEq, Option.some.injEq] at h
  omega

/-- Below the 1000-entry cap, `blacklistToken` is plain insertion: folding it
over pairwise distinct fresh tokens appends them all with no eviction. -/
theorem foldl_blacklistToken_no_eviction (xs : List Jwt) (acc : List Jwt)
    (hnd : (acc ++ xs).Nodup) (hlen : acc.length + xs.length ≤ 1000) :
    List.foldl blacklistToken acc xs = acc ++ xs := by
  induction xs generalizing acc with
  | nil => simp
  | cons x rest ih =>
    have hx : x ∉ acc := by
      intro hmem
      exact (List.disjoint_of_nodup_append hnd) hmem (by simp)
    have hstep : blacklistToken acc x = acc ++ [x] := by
      unfold blacklistToken
      simp only [hx, if_false]
      rw [if_neg]
      simp only [List.length_append, List.length_cons, List.length_nil] at hlen ⊢
      omega
    have hnd2 : ((acc ++ [x]) ++ rest).Nodup := by
      simpa using hnd
    have hlen2 : (acc ++ [x]).length + rest.length ≤ 1000 := by
      simp only [List.length_append, List.length_cons, List.length_nil] at hlen ⊢
      omega
    rw [List.foldl_cons, hstep, ih (acc ++ [x]) hnd2 hlen2]
    simp

/-- The token list fed to the guard is duplicate-free. -/
theorem evictionTokens_nodup (n : Nat) : ((List.range n).map evictionToken).Nodup :=
  (List.nodup_range n).map evictionToken_injective

/-- Folding the guard over the 1001 tokens: the first 1000 insert cleanly,
the 1001st trips the cap and drops the 501 oldest entries. -/
theorem foldl_blacklistToken_evicts :
    List.foldl blacklistToken [] ((List.range 1001).map evictionToken)
      = ((List.range 1001).map evictionToken).drop 501 := by
  have hsplit : (List.range 1001).map evictionToken
      = (List.range 1000).map evictionToken ++ [evictionToken 1000] := by
    rw [List.range_succ, List.map_append]
    rfl
  have hfirst : List.foldl blacklistToken [] ((List.range 1000).map evictionToken)
      = (List.range 1000).map evictionToken := by
    have := foldl_blacklistToken_no_eviction ((List.range 1000).map evictionToken) []
      (by simpa using evictionTokens_nodup 1000) (by simp)
    simpa using this
  have hnotmem : evictionToken 1000 ∉ (List.range 1000).map evictionToken := by
    intro hmem
    rcases List.mem_map.mp hmem with ⟨i, hi, he⟩
    rw [List.mem_range] at hi
    have : i = 1000 := evictionToken_injective he
    omega
  rw [hsplit, List.foldl_append, hfirst]
  simp only [List.foldl_cons, List.foldl_nil]
  unfold blacklistToken
  simp only [hnotmem, if_false]
  rw [if_pos (by simp), ← hsplit]
  have hlen : ((List.range 1001).map evictionToken).length = 1001 := by simp
  rw [hlen]

/-- The dropped prefix contains the very first consumed token. -/
theorem evictionToken_zero_not_in_tail :
    evictionToken 0 ∉ ((List.range 1001).map evictionToken).drop 501 := by
  intro hmem
  rcases List.mem_iff_getElem.mp hmem with ⟨i, hi, hget⟩
  rw [List.getElem_drop] at hget
  rw [List.getElem_map] at hget
  rw [List.getElem_range] at hget
  exact absurd (evictionToken_injective hget) (by omega)

/-- C3: the guard's size-triggered eviction forgets a consumed token while
its lifetime is still running.  All 1001 tokens are issued at time 0, so all
their recordings happen inside one 5-minute window.  After `blacklistToken`
records token 0 followed by 1000 further distinct tokens, token 0 is still
recorded after the first 1000 insertions but gone from the final guard
state (the cap keeps only the 500 newest entries), and at time 100 — well
inside token 0's validity window — `verifyJWT` accepts token 0 again: the
replay guard forgot it before its lifetime elapsed, refuting the claim and
confirming the documented correctness risk. -/
theorem c3_eviction_forgets_live_token :
    evictionToken 0 ∈ List.foldl blacklistToken [] ((List.range 1000).map evictionToken) ∧
    evictionToken 0 ∉ List.foldl blacklistToken [] ((List.range 1001).map evictionToken) ∧
    verifyJWT (List.foldl blacklistToken [] ((List.range 1001).map evictionToken)) "k" 100
      (evictionToken 0)
      = .ok ⟨some 1, none, "auto-login", "website1", none, 0⟩ := by
  have hfirst : List.foldl blacklistToken [] ((List.range 1000).map evictionToken)
      = (List.range 1000).map evictionToken := by
    have := foldl_blacklistToken_no_eviction ((List.range 1000).map evictionToken) []
      (by simpa using evictionTokens_nodup 1000) (by simp)
    simpa using this
  have hnot : evictionToken 0 ∉ List.foldl blacklistToken [] ((List.range 1001).map evictionToken) := by
    rw [foldl_blacklistToken_evicts]
    exact evictionToken_zero_not_in_tail
  refine ⟨?_, hnot, ?_⟩
  · rw [hfirst]
    exact List.mem_map.mpr ⟨0, by simp, rfl⟩
  · have h1 : jwtVerify "k" 100 (evictionToken 0)
        = .ok ⟨some 1, none, "auto-login", "website1", none, 0⟩ := by
      simp [evictionToken, jwtVerify]
    have hsub : hasSubject ⟨some 1, none, "auto-login", "website1", none, 0⟩ = true := by
      simp [hasSubject, truthyNat]
    simp [verifyJWT, hnot, h1, hsub]
